import Mathlib

/-!
Shallow embedding of the query-specification builder and execution
orchestrator of src/ormar/queryset/queryset.py (class QuerySet).

Pure chain methods (filter / exclude / select_related / limit / offset)
become Lean functions on a `QuerySet` record; terminal methods that talk
to the database become functions taking and returning an explicit `DB`
state, with Python exceptions embedded as `Except Err`.

External collaborators that are not part of src/ (the predicate builder
QueryClause, the Model class factory methods, and the database transport)
are modelled from the spec; each such definition carries a doc comment
starting with `Modelled from the spec:`.
-/

set_option autoImplicit false

namespace Ormar

/-- Scalar values flowing through the embedding: Python None, int and str. -/
inductive Value where
  | null
  | int (i : Int)
  | str (s : String)
deriving DecidableEq, Repr

/-- Python truthiness of a scalar (used by `if pk and ...` in create). -/
def Value.truthy : Value → Bool
  | Value.null => false
  | Value.int i => i != 0
  | Value.str s => s != ""

/-- Declared scalar types a primary key can have (`Model.pk_type()`). -/
inductive ValType where
  | intT
  | strT
deriving DecidableEq, Repr

/-- Python `isinstance(v, t)` for the embedded scalar types. -/
def Value.isinstance : Value → ValType → Bool
  | Value.int _, ValType.intT => true
  | Value.str _, ValType.strT => true
  | _, _ => false

/-- One entry of `ModelMeta.model_fields`: per-field metadata consumed by
the queryset (default / nullable / autoincrement flags). -/
structure FieldDef where
  has_default : Bool
  default : Value
  nullable : Bool
  autoincrement : Bool
deriving DecidableEq, Repr

/-- Entity metadata (`Model.Meta` plus the Model class helpers the
queryset reads): model name, pk name, field definitions, declared pk
type, own persisted column names and relation names. -/
structure ModelMeta where
  name : String
  pkname : String
  model_fields : List (String × FieldDef)
  pk_type : ValType
  own_fields : List String
  related_names : List String
deriving DecidableEq, Repr

/-- First value bound to key `k` in an association list (Python dict get). -/
def lookupField (fields : List (String × Value)) (k : String) : Option Value :=
  (fields.find? (fun kv => kv.1 == k)).map (fun kv => kv.2)

/-- Python `k in d` for the embedded dicts. -/
def containsKey (fields : List (String × Value)) (k : String) : Bool :=
  (lookupField fields k).isSome

/-- Set/overwrite key `k` in an association list (Python `d[k] = v`). -/
def setField (fields : List (String × Value)) (k : String) (v : Value) :
    List (String × Value) :=
  if containsKey fields k then
    fields.map (fun kv => if kv.1 == k then (kv.1, v) else kv)
  else fields ++ [(k, v)]

/-- The FieldDef of the primary key (`Meta.model_fields[pkname]`). -/
def ModelMeta.pk_field (meta : ModelMeta) : FieldDef :=
  (((meta.model_fields.find? (fun kv => kv.1 == meta.pkname)).map
    (fun kv => kv.2)).getD (FieldDef.mk false Value.null false false))

/-- A predicate node produced by the external builder from one keyword
lookup `key=value`. Opaque to the queryset core. -/
structure Clause where
  key : String
  value : Value
deriving DecidableEq, Repr

/-- The query specification: the fields set up in `QuerySet.__init__`. -/
structure QuerySet where
  model_cls : ModelMeta
  filter_clauses : List Clause
  exclude_clauses : List Clause
  _select_related : List String
  limit_count : Option Nat
  query_offset : Option Nat
deriving DecidableEq, Repr

/-- First-occurrence deduplication, the deterministic embedding of
Python's `list(set(xs))`. -/
def uniqueList {α : Type} [DecidableEq α] : List α → List α
  | [] => []
  | x :: xs => x :: (uniqueList xs).filter (fun y => y != x)

/-- Modelled from the spec: the external predicate builder
(`QueryClause.filter`, not under src/). Per the §6 contract it is
deterministic, does not mutate its inputs, and returns the updated clause
list together with the updated select-related paths. The source
constructs `QueryClause` with the accumulated `self.filter_clauses` and
uses the returned list directly as the new `filter_clauses`, so the
builder appends one predicate node per keyword lookup to the clause list
it was given. The embedded lookups are plain field names, so no
additional relation paths are discovered and select_related is returned
unchanged. -/
def QueryClause.filter (filter_clauses : List Clause) (select_related : List String)
    (kwargs : List (String × Value)) : List Clause × List String :=
  (filter_clauses ++ kwargs.map (fun kv => Clause.mk kv.1 kv.2), select_related)

/-- `QuerySet.filter(_exclude=..., **kwargs)` (queryset.py lines 104-125). -/
def QuerySet.filter (self : QuerySet) (_exclude : Bool)
    (kwargs : List (String × Value)) : QuerySet :=
  let built := QueryClause.filter self.filter_clauses self._select_related kwargs
  let filter_clauses := built.1
  let select_related := built.2
  let exclude_clauses := if _exclude then filter_clauses else self.exclude_clauses
  let filter_clauses := if _exclude then self.filter_clauses else filter_clauses
  { model_cls := self.model_cls
    filter_clauses := filter_clauses
    exclude_clauses := exclude_clauses
    _select_related := select_related
    limit_count := self.limit_count
    query_offset := self.query_offset }

/-- `QuerySet.exclude(**kwargs)` delegates to `filter(_exclude=True, ...)`. -/
def QuerySet.exclude (self : QuerySet) (kwargs : List (String × Value)) : QuerySet :=
  self.filter true kwargs

/-- Argument of `select_related`: a single path or a collection of paths. -/
inductive RelatedArg where
  | single (s : String)
  | many (l : List String)

/-- `QuerySet.select_related(related)` (queryset.py lines 130-142):
wraps a single path into a list, then takes `list(set(existing + new))`. -/
def QuerySet.select_related (self : QuerySet) (related : RelatedArg) : QuerySet :=
  let related := match related with
    | RelatedArg.single s => [s]
    | RelatedArg.many l => l
  let related := uniqueList (self._select_related ++ related)
  { model_cls := self.model_cls
    filter_clauses := self.filter_clauses
    exclude_clauses := self.exclude_clauses
    _select_related := related
    limit_count := self.limit_count
    query_offset := self.query_offset }

/-- `QuerySet.limit(limit_count)` (queryset.py lines 180-188). -/
def QuerySet.limit (self : QuerySet) (limit_count : Nat) : QuerySet :=
  { model_cls := self.model_cls
    filter_clauses := self.filter_clauses
    exclude_clauses := self.exclude_clauses
    _select_related := self._select_related
    limit_count := some limit_count
    query_offset := self.query_offset }

/-- `QuerySet.offset(offset)` (queryset.py lines 190-198). -/
def QuerySet.offset (self : QuerySet) (offset : Nat) : QuerySet :=
  { model_cls := self.model_cls
    filter_clauses := self.filter_clauses
    exclude_clauses := self.exclude_clauses
    _select_related := self._select_related
    limit_count := self.limit_count
    query_offset := some offset }

/-- The select statement handed to the transport: the specification data
passed to the external statement builder in `build_select_expression`. -/
structure SelectExpr where
  filter_clauses : List Clause
  exclude_clauses : List Clause
  select_related : List String
  query_offset : Option Nat
  limit_count : Option Nat
deriving DecidableEq, Repr

/-- `QuerySet.build_select_expression` (queryset.py lines 91-102). -/
def QuerySet.build_select_expression (self : QuerySet) : SelectExpr :=
  { filter_clauses := self.filter_clauses
    exclude_clauses := self.exclude_clauses
    select_related := self._select_related
    query_offset := self.query_offset
    limit_count := self.limit_count }

/-- `expr.limit(n)` on the statement, replacing any earlier limit. -/
def SelectExpr.limit (e : SelectExpr) (n : Nat) : SelectExpr :=
  { e with limit_count := some n }

/-- A raw database row: column name to scalar value. -/
structure Row where
  fields : List (String × Value)
deriving DecidableEq, Repr

/-- The database state: stored rows plus the autoincrement counter a
lastrowid-style driver maintains. -/
structure DB where
  rows : List Row
  next_id : Int
deriving DecidableEq, Repr

/-- Whether a predicate node (an equality lookup) holds on a row. -/
def clauseMatches (c : Clause) (r : Row) : Bool :=
  lookupField r.fields c.key == some c.value

/-- Modelled from the spec: the statement builder combines filter clauses
with logical AND and exclude clauses with logical AND under a negation
(§4.2); a row passes when every filter clause holds and, if any exclude
clauses are present, not all of them hold. -/
def rowPasses (fc ec : List Clause) (r : Row) : Bool :=
  fc.all (fun c => clauseMatches c r) &&
    !((!ec.isEmpty) && ec.all (fun c => clauseMatches c r))

/-- Apply an optional LIMIT to an ordered result. -/
def applyLimit (l : Option Nat) (rows : List Row) : List Row :=
  match l with
  | none => rows
  | some n => rows.take n

/-- Modelled from the spec: transport `fetch_all` honours every clause,
the offset and the limit of the statement with no silent omission (§4.2,
§6). -/
def DB.fetch_all (db : DB) (e : SelectExpr) : List Row :=
  applyLimit e.limit_count
    ((db.rows.filter (rowPasses e.filter_clauses e.exclude_clauses)).drop
      (e.query_offset.getD 0))

/-- A materialized domain object: its field mapping. -/
structure Instance where
  fields : List (String × Value)
deriving DecidableEq, Repr

/-- Python attribute read, with None for an unset attribute. -/
def Instance.getattr (i : Instance) (k : String) : Value :=
  (lookupField i.fields k).getD Value.null

/-- Python `setattr(instance, k, v)`. -/
def Instance.setattr (i : Instance) (k : String) (v : Value) : Instance :=
  Instance.mk (setField i.fields k v)

/-- Modelled from the spec: the row materializer `Model.from_row` turns a
raw row into a candidate domain object; a row carrying no values (all
columns null) produces a null placeholder rather than an object (§4.3,
§6). The embedded lookups carry no nested relation columns, so the
select-related paths do not alter the produced fields. -/
def Model.from_row (row : Row) (_select_related : List String) : Option Instance :=
  if row.fields.all (fun kv => kv.2 == Value.null) then none
  else some (Instance.mk row.fields)

/-- Identity key used by the merge pass: the primary-key value of a
candidate, when the candidate is an object. -/
def instKey (pkname : String) : Option Instance → Option Value
  | none => none
  | some i => some (i.getattr pkname)

/-- Modelled from the spec: `Model.merge_instances_list` keeps one
instance per unique primary-key value, in first-encounter order (§4.3).
Related-collection appending is not reachable here because the embedded
rows carry no nested relation columns. -/
def Model.merge_instances_list (pkname : String)
    (result_rows : List (Option Instance)) : List (Option Instance) :=
  result_rows.foldl
    (fun acc i =>
      if acc.any (fun j => instKey pkname j == instKey pkname i) then acc
      else acc ++ [i])
    []

/-- `QuerySet._process_query_result_rows` (queryset.py lines 52-59). -/
def QuerySet._process_query_result_rows (self : QuerySet) (rows : List Row) :
    List (Option Instance) :=
  let result_rows := rows.map (fun row => Model.from_row row self._select_related)
  if result_rows.isEmpty then result_rows
  else Model.merge_instances_list self.model_cls.pkname result_rows

/-- The exceptions raised by the queryset: NoMatch, MultipleMatches and
QueryDefinitionError (with its message). -/
inductive Err where
  | NoMatch
  | MultipleMatches
  | QueryDefinitionError (msg : String)
deriving DecidableEq, Repr

/-- `QuerySet.check_single_result_rows_count` (queryset.py lines 76-81). -/
def QuerySet.check_single_result_rows_count (rows : List (Option Instance)) :
    Except Err Unit :=
  if rows.isEmpty || rows.head? == some none then Except.error Err.NoMatch
  else if rows.length > 1 then Except.error Err.MultipleMatches
  else Except.ok ()

/-- `QuerySet.all` with no keyword arguments (queryset.py lines 240-244). -/
def QuerySet.all_plain (self : QuerySet) (db : DB) : List (Option Instance) :=
  let expr := self.build_select_expression
  let rows := db.fetch_all expr
  self._process_query_result_rows rows

/-- `QuerySet.all(**kwargs)` (queryset.py lines 236-244): with keyword
arguments it recurses through `filter`. -/
def QuerySet.all (self : QuerySet) (kwargs : List (String × Value)) (db : DB) :
    List (Option Instance) :=
  if kwargs.isEmpty then self.all_plain db
  else (self.filter false kwargs).all_plain db

/-- `QuerySet.get` with no keyword arguments (queryset.py lines 212-219):
caps the fetch at 2 rows when no filter clauses are present, then
requires exactly one non-null result. -/
def QuerySet.get_plain (self : QuerySet) (db : DB) : Except Err Instance :=
  let expr := self.build_select_expression
  let expr := if self.filter_clauses.isEmpty then expr.limit 2 else expr
  let rows := db.fetch_all expr
  let processed_rows := self._process_query_result_rows rows
  match QuerySet.check_single_result_rows_count processed_rows with
  | Except.error e => Except.error e
  | Except.ok _ =>
    match processed_rows.head? with
    | some (some m) => Except.ok m
    | _ => Except.error Err.NoMatch

/-- `QuerySet.get(**kwargs)` (queryset.py lines 208-219): with keyword
arguments it recurses through `filter`. -/
def QuerySet.get (self : QuerySet) (kwargs : List (String × Value)) (db : DB) :
    Except Err Instance :=
  if kwargs.isEmpty then self.get_plain db
  else (self.filter false kwargs).get_plain db

/-- `QuerySet.first` with no keyword arguments (queryset.py lines
204-206): limits to 1 row, materializes, and applies the single-result
check. -/
def QuerySet.first_plain (self : QuerySet) (db : DB) : Except Err Instance :=
  let rows := (self.limit 1).all [] db
  match QuerySet.check_single_result_rows_count rows with
  | Except.error e => Except.error e
  | Except.ok _ =>
    match rows.head? with
    | some (some m) => Except.ok m
    | _ => Except.error Err.NoMatch

/-- `QuerySet.first(**kwargs)` (queryset.py lines 200-206). -/
def QuerySet.first (self : QuerySet) (kwargs : List (String × Value)) (db : DB) :
    Except Err Instance :=
  if kwargs.isEmpty then self.first_plain db
  else (self.filter false kwargs).first_plain db

/-- `QuerySet._populate_default_values` (queryset.py lines 61-65): add
the declared default of every absent field that has one. -/
def QuerySet._populate_default_values (meta : ModelMeta)
    (new_kwargs : List (String × Value)) : List (String × Value) :=
  meta.model_fields.foldl
    (fun kw fd =>
      if !(containsKey kw fd.1) && fd.2.has_default then kw ++ [(fd.1, fd.2.default)]
      else kw)
    new_kwargs

/-- `QuerySet._remove_pk_from_kwargs` (queryset.py lines 67-74): drop the
primary key from the insert fields when it is explicitly null and the
field is nullable or autoincrementing. -/
def QuerySet._remove_pk_from_kwargs (meta : ModelMeta)
    (new_kwargs : List (String × Value)) : List (String × Value) :=
  let pkname := meta.pkname
  let pk := meta.pk_field
  if lookupField new_kwargs pkname == some Value.null && (pk.nullable || pk.autoincrement)
  then new_kwargs.filter (fun kv => kv.1 != pkname)
  else new_kwargs

/-- Modelled from the spec: `Model.substitute_models_with_pks` replaces
related-entity arguments by their primary-key scalars (§4.5, §6); on the
embedded scalar values it is the identity. -/
def Model.substitute_models_with_pks (new_kwargs : List (String × Value)) :
    List (String × Value) :=
  new_kwargs

/-- Modelled from the spec: the domain-object factory. Constructing
`Model(**kwargs)` fills each declared field from the keyword arguments,
falling back to the declared default and otherwise to null (§6). -/
def Model.construct (meta : ModelMeta) (kwargs : List (String × Value)) : Instance :=
  Instance.mk
    (meta.model_fields.map
      (fun fd =>
        (fd.1,
          (lookupField kwargs fd.1).getD
            (if fd.2.has_default then fd.2.default else Value.null))))

/-- Modelled from the spec: transport `execute` on an insert statement.
The row is stored; when the primary key is absent from the values and the
declared key autoincrements, the driver generates the next key, stores it
with the row and returns it (the standard auto-increment path of §4.5).
Otherwise the driver result is the lastrowid-style scalar: the supplied
integer key when one was given, else the affected row count 1. -/
def DB.execute_insert (db : DB) (meta : ModelMeta)
    (values : List (String × Value)) : Value × DB :=
  match lookupField values meta.pkname with
  | some (Value.int v) =>
    (Value.int v, { db with rows := db.rows ++ [Row.mk values] })
  | some _ =>
    (Value.int 1, { db with rows := db.rows ++ [Row.mk values] })
  | none =>
    if meta.pk_field.autoincrement then
      (Value.int db.next_id,
       { rows := db.rows ++ [Row.mk (values ++ [(meta.pkname, Value.int db.next_id)])]
         next_id := db.next_id + 1 })
    else (Value.int 1, { db with rows := db.rows ++ [Row.mk values] })

/-- Modelled from the spec: transport `execute_many` on an insert
statement inserts each prepared row in order (§6). -/
def DB.execute_many_insert (db : DB) (meta : ModelMeta)
    (values_list : List (List (String × Value))) : DB :=
  values_list.foldl (fun d vals => (d.execute_insert meta vals).2) db

/-- The insert-field preparation shared by `create` (queryset.py lines
248-251): copy the kwargs, remove the null pk, substitute related
objects, populate defaults. -/
def QuerySet.create_build_kwargs (self : QuerySet)
    (kwargs : List (String × Value)) : List (String × Value) :=
  let new_kwargs := kwargs
  let new_kwargs := QuerySet._remove_pk_from_kwargs self.model_cls new_kwargs
  let new_kwargs := Model.substitute_models_with_pks new_kwargs
  let new_kwargs := QuerySet._populate_default_values self.model_cls new_kwargs
  new_kwargs

/-- The instance `create` holds just before inspecting the driver result
(queryset.py lines 257-261): built from the caller kwargs, with the
computed insert-field pk assigned when the caller omitted the key but the
computed fields carry one. -/
def QuerySet.create_pre (self : QuerySet) (kwargs : List (String × Value)) : Instance :=
  let new_kwargs := self.create_build_kwargs kwargs
  let inst := Model.construct self.model_cls kwargs
  let pk_name := self.model_cls.pkname
  if !(containsKey kwargs pk_name) && containsKey new_kwargs pk_name then
    inst.setattr pk_name ((lookupField new_kwargs pk_name).getD Value.null)
  else inst

/-- `QuerySet.create(**kwargs)` (queryset.py lines 246-264): execute the
insert and assign the driver result onto the instance only when it is
truthy and an instance of the declared primary-key type. -/
def QuerySet.create (self : QuerySet) (kwargs : List (String × Value)) (db : DB) :
    Instance × DB :=
  let new_kwargs := self.create_build_kwargs kwargs
  let r := db.execute_insert self.model_cls new_kwargs
  let pk := r.1
  let db := r.2
  let pk_name := self.model_cls.pkname
  let inst := self.create_pre kwargs
  let inst :=
    if pk.truthy && pk.isinstance self.model_cls.pk_type then
      inst.setattr pk_name pk
    else inst
  (inst, db)

/-- `QuerySet.get_or_create(**kwargs)` (queryset.py lines 221-225):
attempt `get`, fall through to `create` exactly on NoMatch. -/
def QuerySet.get_or_create (self : QuerySet) (kwargs : List (String × Value))
    (db : DB) : Except Err (Instance × DB) :=
  match self.get kwargs db with
  | Except.ok m => Except.ok (m, db)
  | Except.error Err.NoMatch => Except.ok (self.create kwargs db)
  | Except.error e => Except.error e

/-- `QuerySet.bulk_create(objects)` (queryset.py lines 266-276): prepare
each object's field mapping and run one batched insert. The Python method
returns None; the first component of the result is the caller-held object
list as the method leaves it (the source never assigns to the objects). -/
def QuerySet.bulk_create (self : QuerySet) (objects : List Instance) (db : DB) :
    List Instance × DB :=
  let ready_objects := objects.map
    (fun objt =>
      QuerySet._populate_default_values self.model_cls
        (Model.substitute_models_with_pks
          (QuerySet._remove_pk_from_kwargs self.model_cls objt.fields)))
  (objects, db.execute_many_insert self.model_cls ready_objects)

/-- The error message raised by `bulk_update` for an unsaved object
(queryset.py lines 296-299). -/
def bulkUpdateErrMsg (meta : ModelMeta) : String :=
  "You cannot update unsaved objects. " ++ meta.name ++ " has to have " ++
    meta.pkname ++ " filled."

/-- The effective column list of `bulk_update` (queryset.py lines
283-291): default to own fields united with relation names, and always
include the primary key. -/
def QuerySet.bulk_update_columns (self : QuerySet) (columns : Option (List String)) :
    List String :=
  let pk_name := self.model_cls.pkname
  let columns := match columns with
    | none => uniqueList (self.model_cls.own_fields ++ self.model_cls.related_names)
    | some cs => cs
  if columns.contains pk_name then columns else columns ++ [pk_name]

/-- The per-object loop of `bulk_update` (queryset.py lines 293-302):
raise for the first object whose mapping lacks a non-null primary key,
otherwise build its bound-parameter dict restricted to the columns. -/
def QuerySet.bulk_update_ready (self : QuerySet) (columns : List String) :
    List Instance → Except Err (List (List (String × Value)))
  | [] => Except.ok []
  | objt :: rest =>
    let new_kwargs := objt.fields
    let pk_name := self.model_cls.pkname
    if !(containsKey new_kwargs pk_name) ||
        lookupField new_kwargs pk_name == some Value.null then
      Except.error (Err.QueryDefinitionError (bulkUpdateErrMsg self.model_cls))
    else
      match self.bulk_update_ready columns rest with
      | Except.error e => Except.error e
      | Except.ok l =>
        Except.ok
          (((Model.substitute_models_with_pks new_kwargs).filterMap
            (fun kv =>
              if columns.contains kv.1 then some ("new_" ++ kv.1, kv.2) else none)) :: l)

/-- Overwrite the requested columns of a row from a bound-parameter dict. -/
def applyColumnValues (fields : List (String × Value)) (kw : List (String × Value))
    (cols : List String) (pk_name : String) : List (String × Value) :=
  fields.map
    (fun fv =>
      if cols.contains fv.1 && fv.1 != pk_name then
        match lookupField kw ("new_" ++ fv.1) with
        | some v => (fv.1, v)
        | none => fv
      else fv)

/-- Modelled from the spec: transport `execute_many` on the batched
update statement keyed by primary key (§4.5, §6): each bound-parameter
dict updates the rows whose key equals its bound key. -/
def DB.execute_many_update (db : DB) (pk_name : String) (cols : List String)
    (ready : List (List (String × Value))) : DB :=
  ready.foldl
    (fun d kw =>
      { d with
        rows := d.rows.map
          (fun r =>
            if lookupField r.fields pk_name == lookupField kw ("new_" ++ pk_name) then
              Row.mk (applyColumnValues r.fields kw cols pk_name)
            else r) })
    db

/-- `QuerySet.bulk_update(objects, columns)` (queryset.py lines 278-312). -/
def QuerySet.bulk_update (self : QuerySet) (objects : List Instance)
    (columns : Option (List String)) (db : DB) : Except Err DB :=
  let cs := self.bulk_update_columns columns
  match self.bulk_update_ready cs objects with
  | Except.error e => Except.error e
  | Except.ok ready_objects =>
    Except.ok (db.execute_many_update self.model_cls.pkname cs ready_objects)

/-- Overwrite row fields from the update values (`UPDATE ... SET`). -/
def applyUpdates (fields : List (String × Value)) (updates : List (String × Value)) :
    List (String × Value) :=
  updates.foldl (fun fs kv => setField fs kv.1 kv.2) fields

/-- Modelled from the spec: transport `execute` on an update statement
scoped by the filter clauses (§6): updates every matching row and returns
the affected row count. -/
def DB.execute_update (db : DB) (fc : List Clause)
    (updates : List (String × Value)) : Int × DB :=
  (Int.ofNat (db.rows.filter (fun r => fc.all (fun c => clauseMatches c r))).length,
   { db with
     rows := db.rows.map
       (fun r =>
         if fc.all (fun c => clauseMatches c r) then Row.mk (applyUpdates r.fields updates)
         else r) })

/-- The error message raised by unscoped `update` (queryset.py lines
158-161). -/
def updateGuardMsg : String :=
  "You cannot update without filtering the queryset first. " ++
    "If you want to update all rows use update(each=True, **kwargs)"

/-- `QuerySet.update(each=..., **kwargs)` (queryset.py lines 154-165):
restrict the values to own fields, guard against unscoped updates, then
execute and return the affected row count. -/
def QuerySet.update (self : QuerySet) (each : Bool)
    (kwargs : List (String × Value)) (db : DB) : Except Err (Int × DB) :=
  let self_fields := self.model_cls.own_fields
  let updates := kwargs.filter (fun kv => self_fields.contains kv.1)
  if !each && self.filter_clauses.isEmpty then
    Except.error (Err.QueryDefinitionError updateGuardMsg)
  else Except.ok (db.execute_update self.filter_clauses updates)

/-- One chain call in an arbitrary filter/exclude/select-related/limit/
offset chain. -/
inductive ChainOp where
  | filt (kwargs : List (String × Value))
  | excl (kwargs : List (String × Value))
  | selRel (related : List String)
  | lim (n : Nat)
  | off (n : Nat)

/-- Apply one chain call to a specification. -/
def applyOp (q : QuerySet) : ChainOp → QuerySet
  | ChainOp.filt kwargs => q.filter false kwargs
  | ChainOp.excl kwargs => q.exclude kwargs
  | ChainOp.selRel related => q.select_related (RelatedArg.many related)
  | ChainOp.lim n => q.limit n
  | ChainOp.off n => q.offset n

/-- Apply a chain of calls left to right. -/
def applyChain (q : QuerySet) : List ChainOp → QuerySet
  | [] => q
  | op :: ops => applyChain (applyOp q op) ops

/-- The predicate nodes the builder creates for the keyword lookups of
all `filter` calls of a chain. -/
def filtKwClauses : List ChainOp → List Clause
  | [] => []
  | ChainOp.filt kwargs :: ops =>
    kwargs.map (fun kv => Clause.mk kv.1 kv.2) ++ filtKwClauses ops
  | _ :: ops => filtKwClauses ops

/-- A concrete entity used by the closed witnesses: integer autoincrement
primary key `id`, nullable scalar column `name`. -/
def meta0 : ModelMeta :=
  { name := "Example"
    pkname := "id"
    model_fields :=
      [("id", FieldDef.mk false Value.null false true),
       ("name", FieldDef.mk false Value.null true false)]
    pk_type := ValType.intT
    own_fields := ["id", "name"]
    related_names := [] }

/-- The pristine specification bound to `meta0`. -/
def q0 : QuerySet :=
  { model_cls := meta0
    filter_clauses := []
    exclude_clauses := []
    _select_related := []
    limit_count := none
    query_offset := none }

/-- A concrete two-row table with distinct integer keys. -/
def db2 : DB :=
  { rows :=
      [Row.mk [("id", Value.int 1), ("name", Value.str "a")],
       Row.mk [("id", Value.int 2), ("name", Value.str "b")]]
    next_id := 3 }

/-- A concrete one-row table. -/
def db1 : DB :=
  { rows := [Row.mk [("id", Value.int 1), ("name", Value.str "a")]]
    next_id := 2 }

/-- A stored row carrying an integer primary-key value. -/
def goodRow (pkname : String) (r : Row) : Bool :=
  match lookupField r.fields pkname with
  | some (Value.int _) => true
  | _ => false

/- ------------------------------------------------------------------ -/
/- Helper lemmas.                                                      -/
/- ------------------------------------------------------------------ -/

theorem mem_uniqueList {α : Type} [DecidableEq α] (l : List α) (x : α) :
    x ∈ uniqueList l ↔ x ∈ l := by
  induction l with
  | nil => simp [uniqueList]
  | cons y ys ih =>
    by_cases hxy : x = y
    · subst hxy; simp [uniqueList]
    · simp [uniqueList, List.mem_filter, ih, hxy, bne_iff_ne]

theorem nodup_uniqueList {α : Type} [DecidableEq α] (l : List α) :
    (uniqueList l).Nodup := by
  induction l with
  | nil => simp [uniqueList]
  | cons y ys ih =>
    refine List.nodup_cons.mpr ⟨?_, ih.filter _⟩
    intro hmem
    have := (List.mem_filter.mp hmem).2
    simp [bne_iff_ne] at this

theorem applyOp_filter_clauses (q : QuerySet) (op : ChainOp) :
    (applyOp q op).filter_clauses =
      q.filter_clauses ++
        (match op with
         | ChainOp.filt kwargs => kwargs.map (fun kv => Clause.mk kv.1 kv.2)
         | _ => []) := by
  cases op <;>
    simp [applyOp, QuerySet.filter, QuerySet.exclude, QuerySet.select_related,
      QuerySet.limit, QuerySet.offset, QueryClause.filter]

/- ------------------------------------------------------------------ -/
/- C1: filter/exclude separation.                                      -/
/- ------------------------------------------------------------------ -/

/-- Claim C1, counterexample: after `q.filter(a).exclude(b)` the clause
built from `a` IS a member of the result's exclude_clauses, because
`exclude` receives the accumulated filter clause list back from the
builder and installs the whole of it as the new exclude clauses
(queryset.py lines 110-113). -/
theorem c1_counterexample :
    Clause.mk "a" (Value.int 1) ∈
      ((q0.filter false [("a", Value.int 1)]).exclude
        [("b", Value.int 2)]).exclude_clauses := by
  decide

/-- Claim C1, amended: one direction of the separation does hold — the
filter_clauses of any chain only ever contain the initial filter clauses
and clauses built from `filter` keyword lookups, so a clause added
through `exclude` never appears in filter_clauses. (The other direction
fails, see the counterexample: `exclude` copies previously accumulated
filter clauses into exclude_clauses.) -/
theorem c1_exclude_never_in_filter_clauses (q : QuerySet) (ops : List ChainOp)
    (c : Clause) (h : c ∈ (applyChain q ops).filter_clauses) :
    c ∈ q.filter_clauses ∨ c ∈ filtKwClauses ops := by
  induction ops generalizing q with
  | nil => exact Or.inl h
  | cons op ops ih =>
    have step := ih (applyOp q op) (by simpa [applyChain] using h)
    rcases step with h1 | h1
    · rw [applyOp_filter_clauses] at h1
      rcases List.mem_append.mp h1 with h2 | h2
      · exact Or.inl h2
      · cases op with
        | filt kwargs => exact Or.inr (List.mem_append_left _ h2)
        | excl kwargs => simp at h2
        | selRel related => simp at h2
        | lim n => simp at h2
        | off n => simp at h2
    · cases op with
      | filt kwargs => exact Or.inr (List.mem_append_right _ h1)
      | excl kwargs => exact Or.inr h1
      | selRel related => exact Or.inr h1
      | lim n => exact Or.inr h1
      | off n => exact Or.inr h1

/-- Witness for the amended C1 at a concrete chain. -/
theorem c1_exclude_never_in_filter_clauses_witness :
    Clause.mk "a" (Value.int 1) ∈ q0.filter_clauses ∨
      Clause.mk "a" (Value.int 1) ∈
        filtKwClauses [ChainOp.filt [("a", Value.int 1)], ChainOp.excl [("b", Value.int 2)]] :=
  c1_exclude_never_in_filter_clauses q0
    [ChainOp.filt [("a", Value.int 1)], ChainOp.excl [("b", Value.int 2)]]
    (Clause.mk "a" (Value.int 1)) (by decide)

/- ------------------------------------------------------------------ -/
/- C3: immutability / distinctness of chaining.                        -/
/- ------------------------------------------------------------------ -/

/-- Claim C3, counterexample: a chain call that replicates the current
state returns a specification value equal to the receiver, not a
distinct one — here `limit 5` on a specification whose limit_count is
already 5. (The receiver's fields are unchanged: chain methods are pure
constructors of new records.) -/
theorem c3_counterexample :
    QuerySet.limit (QuerySet.mk meta0 [] [] [] (some 5) none) 5 =
      QuerySet.mk meta0 [] [] [] (some 5) none := by
  decide

/-- Claim C3, amended: every chain method is a pure function of the
receiver (so the receiver's fields cannot change), and the returned
specification differs from the receiver whenever the call genuinely
changes a field: filter with at least one predicate, select_related with
a path not already present, limit/offset with a value different from the
current one, exclude when the clause counts cannot coincide. -/
theorem c3_chain_distinctness (q : QuerySet) :
    (∀ kwargs : List (String × Value), kwargs ≠ [] → q.filter false kwargs ≠ q) ∧
    (∀ kwargs : List (String × Value),
      q.filter_clauses.length + kwargs.length ≠ q.exclude_clauses.length →
      q.exclude kwargs ≠ q) ∧
    (∀ s : String, s ∉ q._select_related →
      q.select_related (RelatedArg.single s) ≠ q) ∧
    (∀ n : Nat, q.limit_count ≠ some n → q.limit n ≠ q) ∧
    (∀ n : Nat, q.query_offset ≠ some n → q.offset n ≠ q) := by
  refine ⟨?_, ?_, ?_, ?_, ?_⟩
  · intro kwargs hk he
    have h1 := congrArg QuerySet.filter_clauses he
    simp [QuerySet.filter, QueryClause.filter] at h1
    have h2 := congrArg List.length h1
    simp at h2
    exact hk h2
  · intro kwargs hk he
    have h1 := congrArg QuerySet.exclude_clauses he
    simp [QuerySet.exclude, QuerySet.filter, QueryClause.filter] at h1
    have h2 := congrArg List.length h1
    simp at h2
    omega
  · intro s hs he
    have h1 := congrArg QuerySet._select_related he
    simp [QuerySet.select_related] at h1
    have h2 : s ∈ uniqueList (q._select_related ++ [s]) :=
      (mem_uniqueList _ _).mpr (List.mem_append_right _ (List.mem_singleton.mpr rfl))
    rw [h1] at h2
    exact hs h2
  · intro n hn he
    have h1 := congrArg QuerySet.limit_count he
    simp [QuerySet.limit] at h1
    exact hn h1.symm
  · intro n hn he
    have h1 := congrArg QuerySet.query_offset he
    simp [QuerySet.offset] at h1
    exact hn h1.symm

/-- Witness for the amended C3 at concrete inputs. -/
theorem c3_chain_distinctness_witness :
    q0.filter false [("a", Value.int 1)] ≠ q0 ∧ q0.limit 3 ≠ q0 :=
  ⟨(c3_chain_distinctness q0).1 [("a", Value.int 1)] (by decide),
   (c3_chain_distinctness q0).2.2.2.1 3 (by decide)⟩

/- ------------------------------------------------------------------ -/
/- C4: select_related union.                                           -/
/- ------------------------------------------------------------------ -/

/-- Claim C4: `select_related` yields the deduplicated set union of the
receiver's select-related set and the supplied path(s); in particular
`q.select_related(a .. ).select_related(a,b ..)` and the reversed order both
yield the set of "a" and "b". -/
theorem c4_select_related_union (q : QuerySet) (related : List String) (x : String) :
    (x ∈ (q.select_related (RelatedArg.many related))._select_related ↔
      x ∈ q._select_related ∨ x ∈ related) ∧
    ((q.select_related (RelatedArg.many related))._select_related.Nodup) ∧
    (∀ s : String,
      x ∈ (q.select_related (RelatedArg.single s))._select_related ↔
        x ∈ q._select_related ∨ x = s) ∧
    (((q0.select_related (RelatedArg.many ["a"])).select_related
        (RelatedArg.many ["a", "b"]))._select_related = ["a", "b"]) ∧
    (((q0.select_related (RelatedArg.many ["a", "b"])).select_related
        (RelatedArg.many ["a"]))._select_related = ["a", "b"]) := by
  refine ⟨?_, ?_, ?_, by decide, by decide⟩
  · simp [QuerySet.select_related, mem_uniqueList]
  · simpa [QuerySet.select_related] using nodup_uniqueList (q._select_related ++ related)
  · intro s
    simp [QuerySet.select_related, mem_uniqueList]

/- ------------------------------------------------------------------ -/
/- C10: null first row treated as no match.                            -/
/- ------------------------------------------------------------------ -/

/-- Claim C10: in the single-result check used by get() and first(), a
result list whose first element is null is treated exactly like an empty
result (NoMatch), MultipleMatches arises only when the list length
exceeds one, and a passing check guarantees a non-null first element, so
a single-result lookup never returns a null placeholder. -/
theorem c10_null_first_row (rows : List (Option Instance)) :
    (rows.head? = some none →
      QuerySet.check_single_result_rows_count rows = Except.error Err.NoMatch ∧
      QuerySet.check_single_result_rows_count rows =
        QuerySet.check_single_result_rows_count ([] : List (Option Instance))) ∧
    (QuerySet.check_single_result_rows_count rows = Except.error Err.MultipleMatches →
      1 < rows.length) ∧
    (∀ u : Unit, QuerySet.check_single_result_rows_count rows = Except.ok u →
      ∃ m, rows.head? = some (some m)) := by
  cases rows with
  | nil => simp [QuerySet.check_single_result_rows_count]
  | cons r rs =>
    cases r with
    | none => simp [QuerySet.check_single_result_rows_count]
    | some i =>
      cases rs with
      | nil => simp [QuerySet.check_single_result_rows_count]
      | cons r2 rs2 =>
        simp [QuerySet.check_single_result_rows_count]

/-- Witness for C10: a two-element list with a null first element fails
with NoMatch (not MultipleMatches), exactly like the empty list. -/
theorem c10_null_first_row_witness :
    (([none, some (Instance.mk [])] : List (Option Instance)).head? = some none) ∧
    QuerySet.check_single_result_rows_count
        ([none, some (Instance.mk [])] : List (Option Instance)) =
      Except.error Err.NoMatch :=
  ⟨rfl, ((c10_null_first_row [none, some (Instance.mk [])]).1 rfl).1⟩

/- ------------------------------------------------------------------ -/
/- C5: unscoped update guard.                                          -/
/- ------------------------------------------------------------------ -/

/-- Claim C5: `update` fails with QueryDefinitionError exactly when
`each` is false and no filter clause is present (and then no statement
runs — the result carries no database state); otherwise it executes and
returns the number of rows matched by the filter clauses. -/
theorem c5_update_guard (q : QuerySet) (each : Bool)
    (kwargs : List (String × Value)) (db : DB) :
    ((each = false ∧ q.filter_clauses = []) →
      q.update each kwargs db = Except.error (Err.QueryDefinitionError updateGuardMsg)) ∧
    ((each = true ∨ q.filter_clauses ≠ []) →
      ∃ dbx, q.update each kwargs db =
        Except.ok
          (Int.ofNat
            (db.rows.filter
              (fun r => q.filter_clauses.all (fun c => clauseMatches c r))).length,
           dbx)) := by
  constructor
  · rintro ⟨he, hf⟩
    simp [QuerySet.update, he, hf]
  · intro h
    have hcond : ¬(!each && q.filter_clauses.isEmpty) = true := by
      rcases h with h | h <;> simp [h]
    refine ⟨(db.execute_update q.filter_clauses
      (kwargs.filter (fun kv => q.model_cls.own_fields.contains kv.1))).2, ?_⟩
    simp [QuerySet.update, hcond, DB.execute_update]

/-- Witness for C5: the unscoped update on `q0` fails, and with
`each=True` it succeeds reporting the two matched rows of `db2`. -/
theorem c5_update_guard_witness :
    (q0.update false [("name", Value.str "x")] db2 =
      Except.error (Err.QueryDefinitionError updateGuardMsg)) ∧
    (∃ dbx, q0.update true [("name", Value.str "x")] db2 = Except.ok (2, dbx)) := by
  constructor
  · exact (c5_update_guard q0 false [("name", Value.str "x")] db2).1 ⟨rfl, rfl⟩
  · obtain ⟨dbx, hx⟩ :=
      (c5_update_guard q0 true [("name", Value.str "x")] db2).2 (Or.inl rfl)
    refine ⟨dbx, ?_⟩
    rw [hx]
    rfl

/- ------------------------------------------------------------------ -/
/- C8: get_or_create error selectivity.                                -/
/- ------------------------------------------------------------------ -/

/-- Claim C8: `get_or_create` returns the result of `get` when it
succeeds, falls through to `create` exactly on NoMatch, and propagates
every other failure of `get` unmodified (no create is attempted: the
error result carries no new database state). -/
theorem c8_get_or_create_selectivity (q : QuerySet)
    (kwargs : List (String × Value)) (db : DB) :
    (∀ m, q.get kwargs db = Except.ok m →
      q.get_or_create kwargs db = Except.ok (m, db)) ∧
    (q.get kwargs db = Except.error Err.NoMatch →
      q.get_or_create kwargs db = Except.ok (q.create kwargs db)) ∧
    (∀ e, e ≠ Err.NoMatch → q.get kwargs db = Except.error e →
      q.get_or_create kwargs db = Except.error e) := by
  refine ⟨?_, ?_, ?_⟩
  · intro m h
    simp [QuerySet.get_or_create, h]
  · intro h
    simp [QuerySet.get_or_create, h]
  · intro e he h
    cases e with
    | NoMatch => exact absurd rfl he
    | MultipleMatches => simp [QuerySet.get_or_create, h]
    | QueryDefinitionError msg => simp [QuerySet.get_or_create, h]

/-- Witness for C8: on the two-row table, `get` fails with
MultipleMatches, and `get_or_create` propagates it without creating. -/
theorem c8_get_or_create_selectivity_witness :
    (Err.MultipleMatches ≠ Err.NoMatch ∧
      q0.get [] db2 = Except.error Err.MultipleMatches) ∧
    q0.get_or_create [] db2 = Except.error Err.MultipleMatches :=
  ⟨⟨by decide, by rfl⟩,
   (c8_get_or_create_selectivity q0 [] db2).2.2 Err.MultipleMatches (by decide) (by rfl)⟩

/- ------------------------------------------------------------------ -/
/- C9: bulk_create non-mutation.                                       -/
/- ------------------------------------------------------------------ -/

theorem execute_insert_rows_length (db : DB) (meta : ModelMeta)
    (values : List (String × Value)) :
    ((db.execute_insert meta values).2).rows.length = db.rows.length + 1 := by
  unfold DB.execute_insert
  cases h : lookupField values meta.pkname with
  | none => by_cases hauto : meta.pk_field.autoincrement = true <;> simp [hauto]
  | some v => cases v <;> simp

theorem execute_many_insert_rows_length (meta : ModelMeta) :
    ∀ (values_list : List (List (String × Value))) (db : DB),
    (db.execute_many_insert meta values_list).rows.length =
      db.rows.length + values_list.length
  | [], _ => rfl
  | v :: vs, db => by
    have step : db.execute_many_insert meta (v :: vs) =
        ((db.execute_insert meta v).2).execute_many_insert meta vs := rfl
    rw [step, execute_many_insert_rows_length meta vs,
      execute_insert_rows_length]
    simp
    omega

/-- Claim C9: `bulk_create` leaves the caller-supplied objects exactly as
they were (no generated key is written back onto any of them) and returns
no per-row result, while one row per object is inserted into the
database. -/
theorem c9_bulk_create_frame (q : QuerySet) (objects : List Instance) (db : DB) :
    (q.bulk_create objects db).1 = objects ∧
    ((q.bulk_create objects db).2.rows.length = db.rows.length + objects.length) := by
  constructor
  · rfl
  · show (db.execute_many_insert q.model_cls _).rows.length = _
    rw [execute_many_insert_rows_length]
    simp [QuerySet.bulk_create]

/- ------------------------------------------------------------------ -/
/- C7: bulk_update precondition.                                       -/
/- ------------------------------------------------------------------ -/

theorem bulk_update_ready_error (q : QuerySet) (cs : List String) :
    ∀ objects : List Instance,
    (∃ objt ∈ objects,
      containsKey objt.fields q.model_cls.pkname = false ∨
      lookupField objt.fields q.model_cls.pkname = some Value.null) →
    q.bulk_update_ready cs objects =
      Except.error (Err.QueryDefinitionError (bulkUpdateErrMsg q.model_cls))
  | [], h => absurd h (by simp)
  | objt :: rest, h => by
    by_cases hb : (!(containsKey objt.fields q.model_cls.pkname) ||
        lookupField objt.fields q.model_cls.pkname == some Value.null) = true
    · simp only [QuerySet.bulk_update_ready]
      rw [if_pos hb]
    · have hrest : ∃ o ∈ rest,
          containsKey o.fields q.model_cls.pkname = false ∨
          lookupField o.fields q.model_cls.pkname = some Value.null := by
        rcases h with ⟨o, ho, hcase⟩
        rcases List.mem_cons.mp ho with rfl | hmem
        · exfalso
          apply hb
          rcases hcase with hc | hc
          · simp [hc]
          · simp [hc]
        · exact ⟨o, hmem, hcase⟩
      have ih := bulk_update_ready_error q cs rest hrest
      simp only [QuerySet.bulk_update_ready]
      rw [if_neg hb, ih]

/-- Claim C7: if any object in the batch lacks a non-null primary key,
`bulk_update` fails with the QueryDefinitionError naming the entity and
the missing key, and no statement executes — the result is the same for
every database state and carries no updated state. -/
theorem c7_bulk_update_precondition (q : QuerySet) (objects : List Instance)
    (columns : Option (List String)) (db : DB)
    (h : ∃ objt ∈ objects,
      containsKey objt.fields q.model_cls.pkname = false ∨
      lookupField objt.fields q.model_cls.pkname = some Value.null) :
    q.bulk_update objects columns db =
      Except.error (Err.QueryDefinitionError (bulkUpdateErrMsg q.model_cls)) := by
  have hready := bulk_update_ready_error q (q.bulk_update_columns columns) objects h
  simp [QuerySet.bulk_update, hready]

/-- Witness for C7: a batch containing one object without a primary key
fails whole with the naming error message. -/
theorem c7_bulk_update_precondition_witness :
    (∃ objt ∈ [Instance.mk [("id", Value.int 1), ("name", Value.str "ok")],
               Instance.mk [("name", Value.str "x")]],
      containsKey objt.fields q0.model_cls.pkname = false ∨
      lookupField objt.fields q0.model_cls.pkname = some Value.null) ∧
    q0.bulk_update
        [Instance.mk [("id", Value.int 1), ("name", Value.str "ok")],
         Instance.mk [("name", Value.str "x")]] none db2 =
      Except.error (Err.QueryDefinitionError (bulkUpdateErrMsg q0.model_cls)) :=
  ⟨by decide,
   c7_bulk_update_precondition q0
     [Instance.mk [("id", Value.int 1), ("name", Value.str "ok")],
      Instance.mk [("name", Value.str "x")]] none db2 (by decide)⟩

/- ------------------------------------------------------------------ -/
/- C6: create() generated-key assignment.                              -/
/- ------------------------------------------------------------------ -/

theorem lookup_none_of_not_contains (fs : List (String × Value)) (k : String)
    (h : containsKey fs k = false) : lookupField fs k = none := by
  cases hl : lookupField fs k with
  | none => rfl
  | some v =>
    unfold containsKey at h
    rw [hl] at h
    simp at h

theorem lookupField_append_single (l : List (String × Value)) (n : String)
    (v : Value) (k : String) :
    lookupField (l ++ [(n, v)]) k =
      match lookupField l k with
      | some w => some w
      | none => if n == k then some v else none := by
  induction l with
  | nil =>
    by_cases hn : (n == k) = true <;> simp [lookupField, List.find?, hn]
  | cons p ps ih =>
    by_cases hp : (p.1 == k) = true
    · simp [lookupField, List.find?, hp]
    · simpa [lookupField, List.find?, hp] using ih

theorem containsKey_append_single (l : List (String × Value)) (n : String)
    (v : Value) (k : String) :
    containsKey (l ++ [(n, v)]) k = (containsKey l k || (n == k)) := by
  unfold containsKey
  rw [lookupField_append_single]
  cases hl : lookupField l k with
  | none => by_cases hn : (n == k) = true <;> simp [hn]
  | some w => simp

theorem populate_foldl_not_contains (k : String) :
    ∀ (mf : List (String × FieldDef)) (kw : List (String × Value)),
    (∀ p ∈ mf, p.1 = k → p.2.has_default = false) →
    containsKey kw k = false →
    containsKey
      (mf.foldl
        (fun kw fd =>
          if !(containsKey kw fd.1) && fd.2.has_default then kw ++ [(fd.1, fd.2.default)]
          else kw)
        kw) k = false
  | [], _, _, h => h
  | fd :: mf, kw, hmf, h => by
    rw [List.foldl_cons]
    apply populate_foldl_not_contains k mf _
      (fun p hp hpk => hmf p (List.mem_cons_of_mem _ hp) hpk)
    by_cases hc : (!(containsKey kw fd.1) && fd.2.has_default) = true
    · rw [if_pos hc, containsKey_append_single]
      have hne : (fd.1 == k) = false := by
        by_cases he : fd.1 = k
        · exfalso
          have hd := hmf fd (List.mem_cons_self _ _) he
          simp [hd] at hc
        · simp [he]
      simp [h, hne]
    · rw [if_neg hc]
      exact h

theorem lookupField_map_replace (k : String) (v : Value) :
    ∀ fs : List (String × Value), containsKey fs k = true →
    lookupField (fs.map (fun kv => if kv.1 == k then (kv.1, v) else kv)) k = some v
  | [], h => by simp [containsKey, lookupField] at h
  | p :: ps, h => by
    by_cases hp : (p.1 == k) = true
    · simp [lookupField, List.find?, hp]
    · have hps : containsKey ps k = true := by
        unfold containsKey lookupField at h
        rw [List.find?_cons_of_neg _ (by simp [hp])] at h
        exact h
      have ih := lookupField_map_replace k v ps hps
      unfold lookupField at *
      simpa [List.find?, hp] using ih

theorem lookupField_setField_self (fs : List (String × Value)) (k : String) (v : Value) :
    lookupField (setField fs k v) k = some v := by
  unfold setField
  by_cases hc : containsKey fs k = true
  · rw [if_pos hc]
    exact lookupField_map_replace k v fs hc
  · rw [if_neg hc]
    rw [lookupField_append_single,
      lookup_none_of_not_contains fs k (by simpa using hc)]
    simp

theorem create_fst_cases (q : QuerySet) (kwargs : List (String × Value)) (db : DB) :
    (q.create kwargs db).1 =
      (if ((db.execute_insert q.model_cls (q.create_build_kwargs kwargs)).1.truthy &&
          (db.execute_insert q.model_cls (q.create_build_kwargs kwargs)).1.isinstance
            q.model_cls.pk_type) = true then
        (q.create_pre kwargs).setattr q.model_cls.pkname
          (db.execute_insert q.model_cls (q.create_build_kwargs kwargs)).1
      else q.create_pre kwargs) := by
  by_cases h : ((db.execute_insert q.model_cls (q.create_build_kwargs kwargs)).1.truthy &&
      (db.execute_insert q.model_cls (q.create_build_kwargs kwargs)).1.isinstance
        q.model_cls.pk_type) = true <;>
    simp [QuerySet.create, h]

/-- Claim C6: the driver-returned insert result is assigned as the new
object's primary key exactly when it is truthy and an instance of the
declared primary-key type; and creating an object whose autoincrementing
primary key (without a declared default) is omitted from the input
yields an object whose primary key is the generated non-null value of
the declared key type. -/
theorem c6_create_pk_assignment (q : QuerySet) (kwargs : List (String × Value)) (db : DB) :
    (((db.execute_insert q.model_cls (q.create_build_kwargs kwargs)).1.truthy &&
        (db.execute_insert q.model_cls (q.create_build_kwargs kwargs)).1.isinstance
          q.model_cls.pk_type) = true →
      (q.create kwargs db).1 =
        (q.create_pre kwargs).setattr q.model_cls.pkname
          (db.execute_insert q.model_cls (q.create_build_kwargs kwargs)).1) ∧
    (((db.execute_insert q.model_cls (q.create_build_kwargs kwargs)).1.truthy &&
        (db.execute_insert q.model_cls (q.create_build_kwargs kwargs)).1.isinstance
          q.model_cls.pk_type) = false →
      (q.create kwargs db).1 = q.create_pre kwargs) ∧
    (q.model_cls.pk_field.autoincrement = true →
     (∀ p ∈ q.model_cls.model_fields, p.1 = q.model_cls.pkname →
        p.2.has_default = false) →
     q.model_cls.pk_type = ValType.intT →
     containsKey kwargs q.model_cls.pkname = false →
     0 < db.next_id →
     ((q.create kwargs db).1.getattr q.model_cls.pkname = Value.int db.next_id ∧
      (q.create kwargs db).1.getattr q.model_cls.pkname ≠ Value.null ∧
      ((q.create kwargs db).1.getattr q.model_cls.pkname).isinstance
        q.model_cls.pk_type = true)) := by
  refine ⟨?_, ?_, ?_⟩
  · intro hcond
    rw [create_fst_cases, if_pos hcond]
  · intro hcond
    rw [create_fst_cases, if_neg (by simp [hcond])]
  · intro hauto hnodef htype habs hpos
    have hremove : QuerySet._remove_pk_from_kwargs q.model_cls kwargs = kwargs := by
      have hl := lookup_none_of_not_contains kwargs q.model_cls.pkname habs
      simp [QuerySet._remove_pk_from_kwargs, hl]
    have hnk : containsKey (q.create_build_kwargs kwargs) q.model_cls.pkname = false := by
      show containsKey
        (QuerySet._populate_default_values q.model_cls
          (Model.substitute_models_with_pks
            (QuerySet._remove_pk_from_kwargs q.model_cls kwargs)))
        q.model_cls.pkname = false
      rw [hremove]
      exact populate_foldl_not_contains q.model_cls.pkname q.model_cls.model_fields
        kwargs hnodef habs
    have hlk : lookupField (q.create_build_kwargs kwargs) q.model_cls.pkname = none :=
      lookup_none_of_not_contains _ _ hnk
    have hins : (db.execute_insert q.model_cls (q.create_build_kwargs kwargs)).1 =
        Value.int db.next_id := by
      unfold DB.execute_insert
      rw [hlk]
      simp [hauto]
    have hcond : ((db.execute_insert q.model_cls (q.create_build_kwargs kwargs)).1.truthy &&
        (db.execute_insert q.model_cls (q.create_build_kwargs kwargs)).1.isinstance
          q.model_cls.pk_type) = true := by
      rw [hins, htype]
      simp [Value.truthy, Value.isinstance]
      omega
    have hcreate : (q.create kwargs db).1 =
        (q.create_pre kwargs).setattr q.model_cls.pkname (Value.int db.next_id) := by
      rw [create_fst_cases, if_pos hcond, hins]
    have hget : (q.create kwargs db).1.getattr q.model_cls.pkname =
        Value.int db.next_id := by
      rw [hcreate]
      unfold Instance.getattr Instance.setattr
      rw [lookupField_setField_self]
      rfl
    refine ⟨hget, ?_, ?_⟩
    · rw [hget]
      simp
    · rw [hget, htype]
      rfl

/-- Witness for C6: creating with the autoincrementing key omitted on
the concrete entity yields the generated key 3 of the declared type. -/
theorem c6_create_pk_assignment_witness :
    (q0.model_cls.pk_field.autoincrement = true ∧
      containsKey [("name", Value.str "z")] q0.model_cls.pkname = false ∧
      0 < db2.next_id) ∧
    ((q0.create [("name", Value.str "z")] db2).1.getattr q0.model_cls.pkname =
        Value.int db2.next_id ∧
      (q0.create [("name", Value.str "z")] db2).1.getattr q0.model_cls.pkname ≠
        Value.null) :=
  ⟨⟨by decide, by decide, by decide⟩,
   (fun h => ⟨h.1, h.2.1⟩)
     ((c6_create_pk_assignment q0 [("name", Value.str "z")] db2).2.2
       (by decide) (by decide) (by decide) (by decide) (by decide))⟩

/- ------------------------------------------------------------------ -/
/- C2: cap-based get().                                                -/
/- ------------------------------------------------------------------ -/

theorem rowPasses_nil (r : Row) : rowPasses [] [] r = true := rfl

theorem goodRow_exists_int (pkname : String) (r : Row) (h : goodRow pkname r = true) :
    ∃ v : Int, lookupField r.fields pkname = some (Value.int v) := by
  unfold goodRow at h
  cases hl : lookupField r.fields pkname with
  | none => rw [hl] at h; simp at h
  | some w =>
    cases w with
    | int i => exact ⟨i, rfl⟩
    | null => rw [hl] at h; simp at h
    | str s => rw [hl] at h; simp at h

theorem from_row_of_goodRow (pkname : String) (r : Row) (sr : List String)
    (h : goodRow pkname r = true) :
    Model.from_row r sr = some (Instance.mk r.fields) := by
  obtain ⟨v, hv⟩ := goodRow_exists_int pkname r h
  unfold Model.from_row
  rw [if_neg]
  intro hall
  obtain ⟨kv, hfind, h2⟩ := Option.map_eq_some'.mp hv
  have hmem := List.mem_of_find?_eq_some hfind
  have hnull := List.all_eq_true.mp hall kv hmem
  simp only [beq_iff_eq] at hnull
  rw [h2] at hnull
  exact Value.noConfusion hnull

theorem get_plain_unfiltered (q : QuerySet) (db : DB)
    (hfc : q.filter_clauses = []) (hec : q.exclude_clauses = [])
    (hoff : q.query_offset = none) :
    q.get_plain db =
      (match QuerySet.check_single_result_rows_count
          (q._process_query_result_rows (db.rows.take 2)) with
       | Except.error e => Except.error e
       | Except.ok _ =>
         match (q._process_query_result_rows (db.rows.take 2)).head? with
         | some (some m) => Except.ok m
         | _ => Except.error Err.NoMatch) := by
  have hfetch : db.fetch_all ((q.build_select_expression).limit 2) = db.rows.take 2 := by
    unfold DB.fetch_all QuerySet.build_select_expression SelectExpr.limit
    simp only [hfc, hec, hoff, applyLimit, Option.getD_none, List.drop_zero]
    rw [List.filter_eq_self.mpr (fun a _ => rowPasses_nil a)]
  simp only [QuerySet.get_plain, hfc, List.isEmpty_nil, if_true, hfetch]

/-- Claim C2: with no filter clauses (and no offset), `get()` with no
arguments fetches at most 2 rows — its result only depends on the first
two rows of the table — and on a table with pairwise-distinct integer
keys it returns the single row when there is exactly one, fails with
NoMatch on zero rows, and fails with MultipleMatches on two or more. -/
theorem c2_capped_get (q : QuerySet) (db : DB)
    (hfc : q.filter_clauses = []) (hec : q.exclude_clauses = [])
    (hoff : q.query_offset = none)
    (hgood : ∀ r ∈ db.rows, goodRow q.model_cls.pkname r = true)
    (hdist : (db.rows.map (fun r => lookupField r.fields q.model_cls.pkname)).Nodup) :
    (q.get [] db = q.get [] (DB.mk (db.rows.take 2) db.next_id)) ∧
    (db.rows = [] → q.get [] db = Except.error Err.NoMatch) ∧
    (∀ r, db.rows = [r] → q.get [] db = Except.ok (Instance.mk r.fields)) ∧
    (2 ≤ db.rows.length → q.get [] db = Except.error Err.MultipleMatches) := by
  have hget : q.get [] db = q.get_plain db := by simp [QuerySet.get]
  have hget2 : q.get [] (DB.mk (db.rows.take 2) db.next_id) =
      q.get_plain (DB.mk (db.rows.take 2) db.next_id) := by simp [QuerySet.get]
  refine ⟨?_, ?_, ?_, ?_⟩
  · rw [hget, hget2, get_plain_unfiltered q db hfc hec hoff,
      get_plain_unfiltered q (DB.mk (db.rows.take 2) db.next_id) hfc hec hoff]
    simp [List.take_take]
  · intro h
    rw [hget, get_plain_unfiltered q db hfc hec hoff, h]
    simp [QuerySet._process_query_result_rows,
      QuerySet.check_single_result_rows_count]
  · intro r h
    have hg : goodRow q.model_cls.pkname r = true := hgood r (by rw [h]; simp)
    have hfr := from_row_of_goodRow q.model_cls.pkname r q._select_related hg
    rw [hget, get_plain_unfiltered q db hfc hec hoff, h]
    simp [QuerySet._process_query_result_rows, hfr, Model.merge_instances_list,
      QuerySet.check_single_result_rows_count]
  · intro h2
    rw [hget, get_plain_unfiltered q db hfc hec hoff]
    cases hr : db.rows with
    | nil => rw [hr] at h2; simp at h2
    | cons r1 t =>
      cases t with
      | nil => rw [hr] at h2; simp at h2
      | cons r2 rest =>
        have hg1 : goodRow q.model_cls.pkname r1 = true :=
          hgood r1 (by rw [hr]; simp)
        have hg2 : goodRow q.model_cls.pkname r2 = true :=
          hgood r2 (by rw [hr]; simp)
        obtain ⟨v1, hv1⟩ := goodRow_exists_int _ _ hg1
        obtain ⟨v2, hv2⟩ := goodRow_exists_int _ _ hg2
        have hfr1 := from_row_of_goodRow q.model_cls.pkname r1 q._select_related hg1
        have hfr2 := from_row_of_goodRow q.model_cls.pkname r2 q._select_related hg2
        have hne : lookupField r1.fields q.model_cls.pkname ≠
            lookupField r2.fields q.model_cls.pkname := by
          rw [hr] at hdist
          simp only [List.map_cons, List.nodup_cons, List.mem_cons] at hdist
          intro he
          exact hdist.1 (Or.inl he)
        have hbeq : (instKey q.model_cls.pkname (some (Instance.mk r1.fields)) ==
            instKey q.model_cls.pkname (some (Instance.mk r2.fields))) = false := by
          simp only [instKey, Instance.getattr]
          rw [hv1, hv2]
          simp only [Option.getD_some, beq_eq_false_iff_ne, ne_eq,
            Option.some.injEq]
          intro he
          rw [hv1, hv2] at hne
          exact hne (by rw [he])
        have hkey_ne : instKey q.model_cls.pkname (some (Instance.mk r1.fields)) ≠
            instKey q.model_cls.pkname (some (Instance.mk r2.fields)) :=
          beq_eq_false_iff_ne.mp hbeq
        have hmerge : Model.merge_instances_list q.model_cls.pkname
            [some (Instance.mk r1.fields), some (Instance.mk r2.fields)] =
            [some (Instance.mk r1.fields), some (Instance.mk r2.fields)] := by
          simp [Model.merge_instances_list, hkey_ne]
        simp [QuerySet._process_query_result_rows, hfr1, hfr2, hmerge,
          QuerySet.check_single_result_rows_count]

/-- Witness for C2: on the two-row table `get()` fails with
MultipleMatches; on the one-row table it returns that row. -/
theorem c2_capped_get_witness :
    (2 ≤ db2.rows.length ∧ q0.get [] db2 = Except.error Err.MultipleMatches) ∧
    q0.get [] db1 =
      Except.ok (Instance.mk [("id", Value.int 1), ("name", Value.str "a")]) :=
  ⟨⟨by decide,
    (c2_capped_get q0 db2 rfl rfl rfl (by decide) (by decide)).2.2.2 (by decide)⟩,
   (c2_capped_get q0 db1 rfl rfl rfl (by decide) (by decide)).2.2.1
     (Row.mk [("id", Value.int 1), ("name", Value.str "a")]) rfl⟩

end Ormar
